import Mathlib

/-!
Shallow embedding of the Livy-sessions VSCode extension core
(`src/livy/sessionManager.ts`, `src/livy/client.ts`, `src/livy/dependencyStore.ts`,
`src/livy/hdfsClient.ts`) together with proofs of the testable properties
stated in the specification.

Network calls, timers and cancellation tokens are modelled by explicit
observation values threaded through the operations: each poll-loop
iteration consumes one observation record describing what the environment
(cancellation token, wall clock, HTTP client) reported at the suspension
points of that iteration, in the exact order the source checks them.
-/

-- ───────────────────────── Data model (src/livy/types.ts) ─────────────────────────

/-- Session lifecycle states, mirroring `SessionState` in `types.ts`. -/
inductive SessionState
  | not_started
  | starting
  | idle
  | busy
  | shutting_down
  | error
  | dead
  | killed
  | success
  deriving Repr, DecidableEq

/-- Statement lifecycle states, mirroring `StatementState` in `types.ts`. -/
inductive StatementState
  | waiting
  | running
  | available
  | error
  | cancelling
  | cancelled
  deriving Repr, DecidableEq

/-- Session kinds, mirroring `SessionKind` in `types.ts`. -/
inductive SessionKind
  | spark
  | pyspark
  | sparkr
  | sql
  deriving Repr, DecidableEq

/-- The fields of `LivySession` that the modelled operations read: identity,
state, and the four resource-locator lists used by the dependency store.
Fields the modelled code never inspects (appId, owner, conf, …) are omitted. -/
structure LivySession where
  id : Nat
  name : String
  kind : SessionKind
  state : SessionState
  jars : List String
  pyFiles : List String
  files : List String
  archives : List String
  deriving Repr, DecidableEq

/-- The fields of `LivyStatement` that the modelled operations read. -/
structure LivyStatement where
  id : Nat
  code : String
  state : StatementState
  deriving Repr, DecidableEq

/-- Log-fetch response, mirroring `LogResponse` in `types.ts`.
The wire field `from` is named `fromIndex` here (`from` is a Lean keyword). -/
structure LogResponse where
  id : Nat
  fromIndex : Nat
  size : Nat
  total : Nat
  log : List String
  deriving Repr, DecidableEq

-- ───────────────────── DependencyStore (src/livy/dependencyStore.ts) ─────────────────────

/-- The four dependency categories, mirroring `DependencyField`. -/
inductive DependencyField
  | pyFiles
  | jars
  | files
  | archives
  deriving Repr, DecidableEq

/-- Classification of one dependency entry. -/
inductive DepStatus
  | active
  | pending
  deriving Repr, DecidableEq

/-- One classified dependency entry, mirroring `DepEntry`. -/
structure DepEntry where
  uri : String
  field : DependencyField
  status : DepStatus
  deriving Repr, DecidableEq

/-- The desired locator lists read from workspace configuration
(`config.get<string[]>(field, [])` for each of the four fields). In the
source these are read inside `getEntries`; here they are an explicit input. -/
structure DesiredConfig where
  pyFiles : List String
  jars : List String
  files : List String
  archives : List String
  deriving Repr, DecidableEq

/-- Iteration order of `DependencyStore.fields`. -/
def dependencyFields : List DependencyField :=
  [DependencyField.pyFiles, DependencyField.jars, DependencyField.files, DependencyField.archives]

/-- Desired list for one category (`config.get<string[]>(field, [])`). -/
def DesiredConfig.depList : DesiredConfig → DependencyField → List String
  | c, DependencyField.pyFiles => c.pyFiles
  | c, DependencyField.jars => c.jars
  | c, DependencyField.files => c.files
  | c, DependencyField.archives => c.archives

/-- Session snapshot list for one category (`session[field]`). -/
def LivySession.depList : LivySession → DependencyField → List String
  | s, DependencyField.pyFiles => s.pyFiles
  | s, DependencyField.jars => s.jars
  | s, DependencyField.files => s.files
  | s, DependencyField.archives => s.archives

/-- Embedding of `DependencyStore.getEntries(session)`: for each category in
order, one entry per configured URI, classified `active` when
`session?.[field].includes(uri)` is truthy and `pending` otherwise
(in particular always `pending` when `session` is null). -/
def getEntries (config : DesiredConfig) (session : Option LivySession) : List DepEntry :=
  dependencyFields.flatMap (fun field =>
    (config.depList field).map (fun uri =>
      { uri := uri
        field := field
        status :=
          match session with
          | some s => if (s.depList field).contains uri then DepStatus.active else DepStatus.pending
          | none => DepStatus.pending }))

/-- Embedding of `DependencyStore.getPending(session)`. -/
def getPending (config : DesiredConfig) (session : Option LivySession) : List DepEntry :=
  (getEntries config session).filter (fun e => e.status = DepStatus.pending)

-- ───────────────────── SessionManager state (src/livy/sessionManager.ts) ─────────────────────

/-- Mutable state owned by `SessionManager`: the active-session handle
(`_activeSession`), the persisted id (`workspaceState` under
`livy.activeSessionId`), and the log cursor (`_logOffset`). -/
structure ManagerState where
  activeSession : Option LivySession
  savedSessionId : Option Nat
  logOffset : Nat
  deriving Repr, DecidableEq

/-- Value of `LOG_SIZE` in `sessionManager.ts`. -/
def LOG_SIZE : Nat := 100

-- ───────────────────── createSession (sessionManager.ts lines 101-168) ─────────────────────

/-- States `createSession`'s loop treats as creation failure: exactly
`dead`, `error`, `killed` (lines 130-134; `success` is not checked). -/
def isCreateFailureState : SessionState → Bool
  | SessionState.dead => true
  | SessionState.error => true
  | SessionState.killed => true
  | _ => false

/-- Observations the environment supplies for one iteration of the
`createSession` poll loop, in the order the source consults them:
`token.isCancellationRequested` at the top of the loop (line 125), the
wall clock versus the deadline (line 142), whether the abort signal fired
while `delay` was pending (the `delay` promise then rejects, line 150 and
lines 522-530), `token.isCancellationRequested` after the delay
(line 151), and the result of `client.getSession` (line 154,
`none` meaning the call threw). -/
structure PollObs where
  cancelAtTop : Bool
  pastDeadline : Bool
  abortDuringDelay : Bool
  cancelAfterDelay : Bool
  fetch : Option LivySession
  deriving Repr, DecidableEq

/-- How one run of `createSession` ended. -/
inductive CreateExit
  | createError
  | success (s : LivySession)
  | cancelled
  | terminalFailure (st : SessionState)
  | timedOut
  | rejected
  | pollError
  | pending
  deriving Repr, DecidableEq

/-- Result of a `createSession` run: how it exited, the manager state
afterwards, and the `sessionChanged` notifications fired. -/
structure CreateOutcome where
  exit : CreateExit
  state : ManagerState
  changed : List (Option LivySession)
  deriving Repr, DecidableEq

/-- Embedding of the `while (current.state !== 'idle')` loop of
`createSession` (lines 124-167) plus the success epilogue
(lines 161-166). Each iteration consumes one `PollObs`; an exhausted
observation list while still polling is reported as `pending`. -/
def createPollLoop (st : ManagerState) : LivySession → List PollObs → CreateOutcome
  | current, obs =>
    if current.state = SessionState.idle then
      { exit := CreateExit.success current
        state :=
          { activeSession := some current
            savedSessionId := some current.id
            logOffset := 0 }
        changed := [some current] }
    else
      match obs with
      | [] => { exit := CreateExit.pending, state := st, changed := [] }
      | o :: rest =>
        if o.cancelAtTop then
          { exit := CreateExit.cancelled, state := st, changed := [] }
        else if isCreateFailureState current.state then
          { exit := CreateExit.terminalFailure current.state, state := st, changed := [] }
        else if o.pastDeadline then
          { exit := CreateExit.timedOut, state := st, changed := [] }
        else if o.abortDuringDelay then
          -- the un-caught rejection of `delay` propagates out of the progress callback
          { exit := CreateExit.rejected, state := st, changed := [] }
        else if o.cancelAfterDelay then
          { exit := CreateExit.cancelled, state := st, changed := [] }
        else
          match o.fetch with
          | none => { exit := CreateExit.pollError, state := st, changed := [] }
          | some s => createPollLoop st s rest

/-- Embedding of `createSession` from the initial `client.createSession`
call onward (`none` models the initial POST throwing, lines 112-117). -/
def createSession (st : ManagerState) (created : Option LivySession)
    (obs : List PollObs) : CreateOutcome :=
  match created with
  | none => { exit := CreateExit.createError, state := st, changed := [] }
  | some session => createPollLoop st session obs

-- ───────────────────── executeCode (sessionManager.ts lines 310-398) ─────────────────────

/-- States `executeCode`'s loop treats as terminal: exactly `available`,
`error`, `cancelled` (line 383). -/
def isTerminalStatementState : StatementState → Bool
  | StatementState.available => true
  | StatementState.error => true
  | StatementState.cancelled => true
  | _ => false

/-- Observations for one iteration of the `executeCode` poll loop, in
source order: `combinedToken.isCancellationRequested` at the top
(line 359); whether the server-side `cancelStatement` issued there would
itself throw (its failure is swallowed, lines 360-365, so this field is
never read by the model — it is kept to state that explicitly); whether
the abort signal fired while `delay` was pending (the `delay` promise
then rejects, line 369); the token check after the delay (line 370); and
the result of `client.getStatement` (line 374, `none` meaning it threw). -/
structure ExecObs where
  cancelAtTop : Bool
  cancelCallFails : Bool
  abortDuringDelay : Bool
  cancelAfterDelay : Bool
  fetch : Option LivyStatement
  deriving Repr, DecidableEq

/-- How one run of `executeCode` resolved, from the caller's view. -/
inductive ExecOutcome
  | result (stmt : LivyStatement)
  | noResult
  | rejected
  | pending
  deriving Repr, DecidableEq

/-- Side effects of an `executeCode` run: whether `client.createStatement`
was called, how many `client.cancelStatement` calls were attempted, the
`statementComplete` notifications fired (session id and final statement),
and the `sessionChanged` notifications fired. -/
structure ExecEffects where
  submitted : Bool
  cancelCalls : Nat
  completions : List (Nat × LivyStatement)
  changed : List (Option LivySession)
  deriving Repr, DecidableEq

/-- Result of an `executeCode` run. -/
structure ExecResult where
  outcome : ExecOutcome
  state : ManagerState
  effects : ExecEffects
  deriving Repr, DecidableEq

/-- Embedding of the `for (;;)` poll loop of `executeCode`
(lines 358-395). `refresh` is the result of the best-effort
`client.getSession` refresh performed on reaching a terminal statement
state (lines 386-391, `none` meaning it threw and was swallowed). -/
def execPollLoop (st : ManagerState) (sessionId : Nat)
    (refresh : Option LivySession) : List ExecObs → ExecResult
  | [] =>
    { outcome := ExecOutcome.pending, state := st
      effects := { submitted := true, cancelCalls := 0, completions := [], changed := [] } }
  | o :: rest =>
    if o.cancelAtTop then
      -- one best-effort cancelStatement call, then return null
      { outcome := ExecOutcome.noResult, state := st
        effects := { submitted := true, cancelCalls := 1, completions := [], changed := [] } }
    else if o.abortDuringDelay then
      -- the un-caught rejection of `delay` propagates: the promise rejects
      { outcome := ExecOutcome.rejected, state := st
        effects := { submitted := true, cancelCalls := 0, completions := [], changed := [] } }
    else if o.cancelAfterDelay then
      -- line 370: `return null` with no cancelStatement call
      { outcome := ExecOutcome.noResult, state := st
        effects := { submitted := true, cancelCalls := 0, completions := [], changed := [] } }
    else
      match o.fetch with
      | none =>
        -- getStatement threw: handleError, return null (lines 375-378)
        { outcome := ExecOutcome.noResult, state := st
          effects := { submitted := true, cancelCalls := 0, completions := [], changed := [] } }
      | some current =>
        if isTerminalStatementState current.state then
          match refresh with
          | some s =>
            { outcome := ExecOutcome.result current
              state := { st with activeSession := some s }
              effects :=
                { submitted := true, cancelCalls := 0
                  completions := [(sessionId, current)], changed := [some s] } }
          | none =>
            { outcome := ExecOutcome.result current
              state := st
              effects :=
                { submitted := true, cancelCalls := 0
                  completions := [(sessionId, current)], changed := [] } }
        else execPollLoop st sessionId refresh rest

/-- Embedding of `executeCode` (lines 310-398). The only guard before the
network call is `if (!this._activeSession)` (line 314); `submitResult` is
the outcome of `client.createStatement` (`none` meaning it threw,
lines 344-352). -/
def executeCode (st : ManagerState) (submitResult : Option LivyStatement)
    (refresh : Option LivySession) (obs : List ExecObs) : ExecResult :=
  match st.activeSession with
  | none =>
    { outcome := ExecOutcome.noResult, state := st
      effects := { submitted := false, cancelCalls := 0, completions := [], changed := [] } }
  | some active =>
    match submitResult with
    | none =>
      { outcome := ExecOutcome.noResult, state := st
        effects := { submitted := true, cancelCalls := 0, completions := [], changed := [] } }
    | some _stmt => execPollLoop st active.id refresh obs

-- ───────────────────── killSession (sessionManager.ts lines 223-243) ─────────────────────

/-- The expression `this._activeSession?.id`. -/
def ManagerState.activeId (st : ManagerState) : Option Nat :=
  st.activeSession.map LivySession.id

/-- Embedding of `killSession(id?)` (lines 223-243): resolves
`id ?? this._activeSession?.id` (line 224), and clears the handle and
fires a `sessionChanged` notification with no session in `finally`
(lines 236-242) whenever the target equals the current active id.
`deleteOk` is whether `client.deleteSession` succeeded; its failure only
changes logging (lines 230-235) because the clear step runs in `finally`.
Returns the new manager state and the notifications fired. -/
def killSession (st : ManagerState) (id : Option Nat) (deleteOk : Bool)
    : ManagerState × List (Option LivySession) :=
  match (match id with
         | some i => some i
         | none => st.activeId) with
  | none => (st, [])
  | some sessionId =>
    -- deleteOk is intentionally not consulted: success and failure reach
    -- the same `finally` block
    let _ := deleteOk
    if st.activeId = some sessionId then
      ({ st with activeSession := none, savedSessionId := none }, [none])
    else (st, [])

-- ───────────── connectToExisting / restoreSession (lines 174-218, 289-303) ─────────────

/-- Embedding of `connectToExisting` from the point the target id is known
(lines 205-217). `fetch` is the result of `client.getSession`
(`none` meaning it threw). -/
def connectToExisting (st : ManagerState) (fetch : Option LivySession)
    : ManagerState × List (Option LivySession) :=
  match fetch with
  | some s =>
    ({ activeSession := some s, savedSessionId := some s.id, logOffset := 0 }, [some s])
  | none => (st, [])

/-- Embedding of `restoreSession` (lines 289-303): no-op without a saved
id; on fetch success installs the session and resets the cursor; on fetch
failure silently clears the saved id and leaves everything else alone. -/
def restoreSession (st : ManagerState) (fetch : Nat → Option LivySession)
    : ManagerState × List (Option LivySession) :=
  match st.savedSessionId with
  | none => (st, [])
  | some savedId =>
    match fetch savedId with
    | some s =>
      ({ activeSession := some s, savedSessionId := st.savedSessionId, logOffset := 0 },
       [some s])
    | none => ({ st with savedSessionId := none }, [])

-- ───────────────────── Log retrieval (sessionManager.ts lines 402-444) ─────────────────────

/-- One `client.getLogs` request as issued on the wire: session id,
`from` offset, and `size`. -/
structure LogRequest where
  sessionId : Nat
  fromIndex : Nat
  size : Nat
  deriving Repr, DecidableEq

/-- Embedding of `getLogs(sessionId?, from?, size?)` (lines 402-420):
resolves the session id (defaulting to the active session), applies the
`from ?? 0` and `size ?? LOG_SIZE` defaults, and issues one request.
`fetch` models `client.getLogs` (`none` meaning it threw). Returns the
response (or `none`) and the list of requests issued. -/
def getLogs (st : ManagerState) (sessionId : Option Nat) (fromIndex : Option Nat)
    (size : Option Nat) (fetch : Nat → Nat → Nat → Option LogResponse)
    : Option LogResponse × List LogRequest :=
  match (match sessionId with
         | some i => some i
         | none => st.activeSession.map (fun s => s.id)) with
  | none => (none, [])
  | some sid =>
    let f := fromIndex.getD 0
    let sz := size.getD LOG_SIZE
    (fetch sid f sz, [{ sessionId := sid, fromIndex := f, size := sz }])

/-- Embedding of `nextLogs` (lines 422-427): fetch from the held cursor,
and on success advance the cursor to `res.from + res.log.length`. -/
def nextLogs (st : ManagerState) (fetch : Nat → Nat → Nat → Option LogResponse)
    : ManagerState × List LogRequest :=
  let r := getLogs st none (some st.logOffset) (some LOG_SIZE) fetch
  match r.1 with
  | some res => ({ st with logOffset := res.fromIndex + res.log.length }, r.2)
  | none => (st, r.2)

/-- The tail offset `Math.max(0, probe.total - LOG_SIZE)` (line 439),
computed over the integers exactly as the JavaScript expression is. -/
def tailOffset (total : Nat) : Nat :=
  (max 0 ((total : Int) - (LOG_SIZE : Int))).toNat

/-- Embedding of `tailLogs` (lines 429-444): probe with a 1-row fetch,
then fetch `LOG_SIZE` rows from the tail offset. Returns the requests
issued (the probe alone when it throws, lines 441-443). -/
def tailLogs (st : ManagerState) (fetch : Nat → Nat → Nat → Option LogResponse)
    : List LogRequest :=
  match st.activeSession.map (fun s => s.id) with
  | none => []
  | some sid =>
    match fetch sid 0 1 with
    | none => [{ sessionId := sid, fromIndex := 0, size := 1 }]
    | some probe =>
      [{ sessionId := sid, fromIndex := 0, size := 1 },
       { sessionId := sid, fromIndex := tailOffset probe.total, size := LOG_SIZE }]

-- ───────────────────── HdfsClient (src/livy/hdfsClient.ts) ─────────────────────

/-- What the modelled upload code reads from one HTTP response: status
code, the `Location` header (`none` when absent), and the body text. -/
structure HttpResponse where
  statusCode : Nat
  location : Option String
  body : String
  deriving Repr, DecidableEq

/-- Failure cases of the upload pipeline, mirroring the `Error`s thrown by
`HdfsClient` (each carries the data the thrown message carries). -/
inductive UploadError
  | mkdirsFailed (status : Nat) (body : String)
  | createFailed (status : Nat) (body : String)
  | missingLocation
  | putFailed (status : Nat) (body : String)
  deriving Repr, DecidableEq

/-- Embedding of `HdfsClient.ensureDirectory` (lines 159-215): the MKDIRS
response resolves when `200 <= status < 300` and rejects otherwise. -/
def ensureDirectory (res : HttpResponse) : Except UploadError Unit :=
  if 200 ≤ res.statusCode ∧ res.statusCode < 300 then Except.ok ()
  else Except.error (UploadError.mkdirsFailed res.statusCode res.body)

/-- Embedding of `HdfsClient.initiateCreate` (lines 220-281): a 307
response with a `Location` header resolves to that header; a 307 whose
`location` is absent or the empty string (the source tests `!location`,
which is true for both) rejects with the protocol-violation error; any
other status rejects with the hard failure carrying status and body. -/
def initiateCreate (res : HttpResponse) : Except UploadError String :=
  if res.statusCode = 307 then
    match res.location with
    | none => Except.error UploadError.missingLocation
    | some loc =>
      if loc = "" then Except.error UploadError.missingLocation
      else Except.ok loc
  else Except.error (UploadError.createFailed res.statusCode res.body)

/-- Embedding of `HdfsClient.streamFileToDataNode` (lines 286-349): the
streamed PUT resolves exactly on status 201 and rejects with the hard
failure carrying status and body otherwise. -/
def streamFileToDataNode (res : HttpResponse) : Except UploadError Unit :=
  if res.statusCode = 201 then Except.ok ()
  else Except.error (UploadError.putFailed res.statusCode res.body)

/-- Embedding of `HdfsClient.upload` (lines 62-86) from the point the
remote path is resolved: MKDIRS, then the NameNode CREATE, then the
streamed PUT to the redirect target; on success the locator
`hdfs://<remotePath>` is returned. The three `HttpResponse` inputs model
the three HTTP exchanges. -/
def upload (remotePath : String) (mkdirsRes createRes putRes : HttpResponse)
    : Except UploadError String :=
  match ensureDirectory mkdirsRes with
  | Except.error e => Except.error e
  | Except.ok _ =>
    match initiateCreate createRes with
    | Except.error e => Except.error e
    | Except.ok _redirect =>
      match streamFileToDataNode putRes with
      | Except.error e => Except.error e
      | Except.ok _ => Except.ok (String.append "hdfs://" remotePath)

-- ═════════════════════════════ Theorems ═════════════════════════════

/-- Claim C7: the dependency status resolver is deterministic and
side-effect-free — identical desired configuration and session snapshot
yield identical output — and with a null snapshot every configured
locator is classified `pending`. -/
theorem C7_resolver_deterministic_null_pending :
    (∀ (config : DesiredConfig) (session : Option LivySession),
        getEntries config session = getEntries config session) ∧
    (∀ (config : DesiredConfig) (e : DepEntry),
        e ∈ getEntries config none → e.status = DepStatus.pending) := by
  refine ⟨fun _ _ => rfl, ?_⟩
  intro config e he
  simp only [getEntries] at he
  rcases List.mem_flatMap.mp he with ⟨field, -, hmap⟩
  rcases List.mem_map.mp hmap with ⟨uri, -, rfl⟩
  rfl

/-- Witness for C7 at a concrete configuration with one pyFiles locator. -/
theorem C7_resolver_deterministic_null_pending_witness :
    (⟨"a.py", DependencyField.pyFiles, DepStatus.pending⟩ : DepEntry) ∈
      getEntries (DesiredConfig.mk ["a.py"] [] [] []) none ∧
    (⟨"a.py", DependencyField.pyFiles, DepStatus.pending⟩ : DepEntry).status =
      DepStatus.pending :=
  ⟨by decide,
   C7_resolver_deterministic_null_pending.2 (DesiredConfig.mk ["a.py"] [] [] []) _ (by decide)⟩

/-- Claim C8: round trip — when the session snapshot's four category
lists equal exactly the desired lists, every entry is classified
`active`. -/
theorem C8_round_trip_all_active (config : DesiredConfig) (s : LivySession)
    (hpy : s.pyFiles = config.pyFiles) (hj : s.jars = config.jars)
    (hf : s.files = config.files) (ha : s.archives = config.archives) :
    ∀ e ∈ getEntries config (some s), e.status = DepStatus.active := by
  intro e he
  simp only [getEntries] at he
  rcases List.mem_flatMap.mp he with ⟨field, -, hmap⟩
  rcases List.mem_map.mp hmap with ⟨uri, huri, rfl⟩
  have hlist : s.depList field = config.depList field := by
    cases field <;>
      simp [LivySession.depList, DesiredConfig.depList, hpy, hj, hf, ha]
  simp [hlist, List.contains]
  exact huri

/-- Witness for C8: a snapshot whose lists equal the desired lists. -/
theorem C8_round_trip_all_active_witness :
    (⟨"x.jar", DependencyField.jars, DepStatus.active⟩ : DepEntry) ∈
      getEntries (DesiredConfig.mk [] ["x.jar"] [] [])
        (some (LivySession.mk 4 "s" SessionKind.pyspark SessionState.idle
          ["x.jar"] [] [] [])) ∧
    (⟨"x.jar", DependencyField.jars, DepStatus.active⟩ : DepEntry).status =
      DepStatus.active :=
  ⟨by decide,
   C8_round_trip_all_active (DesiredConfig.mk [] ["x.jar"] [] [])
     (LivySession.mk 4 "s" SessionKind.pyspark SessionState.idle ["x.jar"] [] [] [])
     rfl rfl rfl rfl _ (by decide)⟩

/-- Claim C10: for every configuration and snapshot (including the
no-snapshot case) the resolver returns exactly one entry per configured
locator, ordered by the fixed category order pyFiles, jars, files,
archives and, within a category, in configuration order; every status is
`active` or `pending`. -/
theorem C10_entries_shape (config : DesiredConfig) (session : Option LivySession) :
    (getEntries config session).map (fun e => (e.uri, e.field)) =
      config.pyFiles.map (fun u => (u, DependencyField.pyFiles)) ++
      config.jars.map (fun u => (u, DependencyField.jars)) ++
      config.files.map (fun u => (u, DependencyField.files)) ++
      config.archives.map (fun u => (u, DependencyField.archives)) ∧
    (getEntries config session).all
      (fun e => e.status == DepStatus.active || e.status == DepStatus.pending) = true := by
  constructor
  · simp [getEntries, dependencyFields, DesiredConfig.depList, List.map_map,
      Function.comp_def, List.append_assoc]
  · rw [List.all_eq_true]
    intro e _
    cases e.status <;> simp

/-- Helper: every run of the create poll loop either exits as success on a
session whose state is `idle`, installing it with a reset cursor and one
notification, or leaves the manager state untouched, fires no
notification, and does not report success. -/
theorem createPollLoop_cases (obs : List PollObs) (st : ManagerState) (current : LivySession) :
    (∃ s, s.state = SessionState.idle ∧
      createPollLoop st current obs =
        { exit := CreateExit.success s
          state := { activeSession := some s, savedSessionId := some s.id, logOffset := 0 }
          changed := [some s] }) ∨
    ((createPollLoop st current obs).state = st ∧
     (createPollLoop st current obs).changed = [] ∧
     ∀ s, (createPollLoop st current obs).exit ≠ CreateExit.success s) := by
  induction obs generalizing current with
  | nil =>
    by_cases h : current.state = SessionState.idle
    · exact Or.inl ⟨current, h, by simp [createPollLoop, h]⟩
    · right
      simp [createPollLoop, h]
  | cons o rest ih =>
    by_cases h : current.state = SessionState.idle
    · exact Or.inl ⟨current, h, by simp [createPollLoop, h]⟩
    · by_cases h1 : o.cancelAtTop = true
      · right; simp [createPollLoop, h, h1]
      · by_cases h2 : isCreateFailureState current.state = true
        · right; simp [createPollLoop, h, h1, h2]
        · by_cases h3 : o.pastDeadline = true
          · right; simp [createPollLoop, h, h1, h2, h3]
          · by_cases h4 : o.abortDuringDelay = true
            · right; simp [createPollLoop, h, h1, h2, h3, h4]
            · by_cases h5 : o.cancelAfterDelay = true
              · right; simp [createPollLoop, h, h1, h2, h3, h4, h5]
              · cases hf : o.fetch with
                | none => right; simp [createPollLoop, h, h1, h2, h3, h4, h5, hf]
                | some s =>
                  have hstep : createPollLoop st current (o :: rest) = createPollLoop st s rest := by
                    simp [createPollLoop, h, h1, h2, h3, h4, h5, hf]
                  rw [hstep]
                  exact ih s

/-- Claim C1: `createSession` reports success — installing the fetched
session as the active handle, resetting the log cursor to zero, and
firing one `sessionChanged` notification carrying it — only when that
session's state is exactly `idle`; every other exit fires no
notification. -/
theorem C1_create_success_only_when_idle (st : ManagerState) (created : Option LivySession)
    (obs : List PollObs) :
    (∀ s, (createSession st created obs).exit = CreateExit.success s →
        s.state = SessionState.idle ∧
        (createSession st created obs).state =
          { activeSession := some s, savedSessionId := some s.id, logOffset := 0 } ∧
        (createSession st created obs).changed = [some s]) ∧
    ((∀ s, (createSession st created obs).exit ≠ CreateExit.success s) →
        (createSession st created obs).changed = []) := by
  cases created with
  | none => simp [createSession]
  | some session =>
    simp only [createSession]
    rcases createPollLoop_cases obs st session with ⟨s, hidle, heq⟩ | ⟨-, hch, hne⟩
    · rw [heq]
      constructor
      · intro s' hs'
        simp only [CreateExit.success.injEq] at hs'
        subst hs'
        exact ⟨hidle, rfl, rfl⟩
      · intro hno
        exact absurd rfl (hno s)
    · exact ⟨fun s' hs' => absurd hs' (hne s'), fun _ => hch⟩

/-- Witness for C1: a run whose creation response is already `idle`. -/
theorem C1_create_success_only_when_idle_witness :
    (createSession (ManagerState.mk none none 5)
        (some (LivySession.mk 7 "w" SessionKind.pyspark SessionState.idle [] [] [] [])) []).exit =
      CreateExit.success (LivySession.mk 7 "w" SessionKind.pyspark SessionState.idle [] [] [] []) ∧
    ((LivySession.mk 7 "w" SessionKind.pyspark SessionState.idle [] [] [] []).state =
        SessionState.idle ∧
      (createSession (ManagerState.mk none none 5)
          (some (LivySession.mk 7 "w" SessionKind.pyspark SessionState.idle [] [] [] [])) []).state =
        { activeSession :=
            some (LivySession.mk 7 "w" SessionKind.pyspark SessionState.idle [] [] [] [])
          savedSessionId :=
            some (LivySession.mk 7 "w" SessionKind.pyspark SessionState.idle [] [] [] []).id
          logOffset := 0 } ∧
      (createSession (ManagerState.mk none none 5)
          (some (LivySession.mk 7 "w" SessionKind.pyspark SessionState.idle [] [] [] [])) []).changed =
        [some (LivySession.mk 7 "w" SessionKind.pyspark SessionState.idle [] [] [] [])]) :=
  ⟨rfl, (C1_create_success_only_when_idle _ _ _).1 _ rfl⟩

/-- Claim C2: every run of `createSession` that does not end in success —
cancellation, terminal-state failure, timeout, poll error, creation
error, an aborted delay, or an unfinished poll — leaves the manager
state, in particular the active-session handle, exactly as it was. -/
theorem C2_non_success_preserves_state (st : ManagerState) (created : Option LivySession)
    (obs : List PollObs)
    (h : ∀ s, (createSession st created obs).exit ≠ CreateExit.success s) :
    (createSession st created obs).state = st := by
  cases created with
  | none => simp [createSession]
  | some session =>
    simp only [createSession] at h ⊢
    rcases createPollLoop_cases obs st session with ⟨s, -, heq⟩ | ⟨hstate, -, -⟩
    · exact absurd (by rw [heq]) (h s)
    · exact hstate

/-- Witness for C2: a run cancelled at the top of the first poll cycle
leaves a pre-existing active session untouched. -/
theorem C2_non_success_preserves_state_witness :
    (createSession
        (ManagerState.mk
          (some (LivySession.mk 3 "old" SessionKind.spark SessionState.busy [] [] [] []))
          (some 3) 42)
        (some (LivySession.mk 9 "new" SessionKind.pyspark SessionState.starting [] [] [] []))
        [PollObs.mk true false false false none]).state =
      ManagerState.mk
        (some (LivySession.mk 3 "old" SessionKind.spark SessionState.busy [] [] [] []))
        (some 3) 42 :=
  C2_non_success_preserves_state _ _ _
    (by intro s hs; simp [createSession, createPollLoop] at hs)

/-- Helper: the statement-create call precedes the poll loop, so every
poll-loop result records `submitted = true`. -/
theorem execPollLoop_submitted (obs : List ExecObs) (st : ManagerState) (sessionId : Nat)
    (refresh : Option LivySession) :
    (execPollLoop st sessionId refresh obs).effects.submitted = true := by
  induction obs with
  | nil => rfl
  | cons o rest ih =>
    by_cases h1 : o.cancelAtTop = true
    · simp [execPollLoop, h1]
    · by_cases h2 : o.abortDuringDelay = true
      · simp [execPollLoop, h1, h2]
      · by_cases h3 : o.cancelAfterDelay = true
        · simp [execPollLoop, h1, h2, h3]
        · cases hf : o.fetch with
          | none => simp [execPollLoop, h1, h2, h3, hf]
          | some current =>
            by_cases h4 : isTerminalStatementState current.state = true
            · cases refresh <;> simp [execPollLoop, h1, h2, h3, hf, h4]
            · have hstep : execPollLoop st sessionId refresh (o :: rest) =
                  execPollLoop st sessionId refresh rest := by
                simp [execPollLoop, h1, h2, h3, hf, h4]
              rw [hstep]
              exact ih

/-- Counterexample to claim C3: with an active session already in the
terminal state `dead`, `executeCode` does not fail before the network
call — the statement-create call is still issued. -/
theorem C3_counterexample :
    (LivySession.mk 3 "d" SessionKind.pyspark SessionState.dead [] [] [] []).state =
      SessionState.dead ∧
    (executeCode
        (ManagerState.mk
          (some (LivySession.mk 3 "d" SessionKind.pyspark SessionState.dead [] [] [] []))
          (some 3) 0)
        (some (LivyStatement.mk 0 "1+1" StatementState.available)) none
        []).effects.submitted = true :=
  ⟨rfl, rfl⟩

/-- Claim C3 as amended: `executeCode` fails immediately with the
"no active session" condition and no network call exactly when the
active-session handle is empty; whenever any active session exists —
whatever its state, terminal included — the statement-create call is
issued. -/
theorem C3_amended_guard (st : ManagerState) (submitResult : Option LivyStatement)
    (refresh : Option LivySession) (obs : List ExecObs) :
    (st.activeSession = none →
      executeCode st submitResult refresh obs =
        { outcome := ExecOutcome.noResult, state := st
          effects := { submitted := false, cancelCalls := 0, completions := [], changed := [] } }) ∧
    (∀ a, st.activeSession = some a →
      (executeCode st submitResult refresh obs).effects.submitted = true) := by
  constructor
  · intro h
    simp [executeCode, h]
  · intro a h
    simp only [executeCode, h]
    cases submitResult with
    | none => rfl
    | some stmt => exact execPollLoop_submitted obs st a.id refresh

/-- Witness for C3 as amended: with no active session the operation
resolves to null, makes no network call, and fires nothing. -/
theorem C3_amended_guard_witness :
    executeCode (ManagerState.mk none none 0) none none [] =
      { outcome := ExecOutcome.noResult, state := ManagerState.mk none none 0
        effects := { submitted := false, cancelCalls := 0, completions := [], changed := [] } } :=
  (C3_amended_guard (ManagerState.mk none none 0) none none []).1 rfl

/-- One poll cycle whose observations make the loop continue: no
cancellation at any of the three checkpoints and a successful fetch of a
non-terminal statement. -/
def execContinues (o : ExecObs) : Bool :=
  !o.cancelAtTop && !o.abortDuringDelay && !o.cancelAfterDelay &&
    (match o.fetch with
     | some s => !isTerminalStatementState s.state
     | none => false)

/-- Helper: continuing cycles are consumed without any effect on the
result of the poll loop. -/
theorem execPollLoop_skip (st : ManagerState) (sessionId : Nat) (refresh : Option LivySession)
    (pre l : List ExecObs) (h : ∀ o ∈ pre, execContinues o = true) :
    execPollLoop st sessionId refresh (pre ++ l) = execPollLoop st sessionId refresh l := by
  induction pre with
  | nil => rfl
  | cons o pre ih =>
    have ho := h o (List.mem_cons_self o pre)
    have hrest : ∀ x ∈ pre, execContinues x = true := fun x hx =>
      h x (List.mem_cons_of_mem o hx)
    cases hf : o.fetch with
    | none => simp [execContinues, hf] at ho
    | some s =>
      simp only [execContinues, hf, Bool.and_eq_true, Bool.not_eq_true'] at ho
      obtain ⟨⟨⟨h1, h2⟩, h3⟩, h4⟩ := ho
      rw [List.cons_append,
        show execPollLoop st sessionId refresh (o :: (pre ++ l)) =
            execPollLoop st sessionId refresh (pre ++ l) from by
          simp [execPollLoop, h1, h2, h3, hf, h4]]
      exact ih hrest

/-- Counterexample to claim C4: cancellation firing while the inter-poll
delay is pending — after submission and before any terminal state is
fetched — makes the `delay` promise reject outside any try/catch, so the
run rejects instead of resolving to the null outcome, and zero (not
exactly one) server-side cancel calls are attempted. -/
theorem C4_counterexample :
    (executeCode
        (ManagerState.mk
          (some (LivySession.mk 5 "s" SessionKind.pyspark SessionState.idle [] [] [] []))
          (some 5) 0)
        (some (LivyStatement.mk 2 "x" StatementState.waiting)) none
        [ExecObs.mk false false true false none]).outcome = ExecOutcome.rejected ∧
    (executeCode
        (ManagerState.mk
          (some (LivySession.mk 5 "s" SessionKind.pyspark SessionState.idle [] [] [] []))
          (some 5) 0)
        (some (LivyStatement.mk 2 "x" StatementState.waiting)) none
        [ExecObs.mk false false true false none]).effects.cancelCalls = 0 :=
  ⟨rfl, rfl⟩

/-- Claim C4 as amended: after any number of continuing poll cycles, if
cancellation is observed at the top-of-cycle check the run resolves to
the null outcome with exactly one best-effort server-side cancel call
(whose own success or failure is irrelevant — the result does not depend
on the `cancelCallFails` observation); if the signal instead fires while
the delay is pending the run rejects with no cancel call; if it is
observed at the post-delay check the run resolves to null with no cancel
call. In all three cases no `statementComplete` notification fires, the
manager state is unchanged, and no later cycle is processed (the result
does not depend on `rest`). -/
theorem C4_amended_cancellation (st : ManagerState) (sessionId : Nat)
    (refresh : Option LivySession) (pre : List ExecObs) (o : ExecObs) (rest : List ExecObs)
    (hpre : ∀ x ∈ pre, execContinues x = true) :
    (o.cancelAtTop = true →
      execPollLoop st sessionId refresh (pre ++ o :: rest) =
        { outcome := ExecOutcome.noResult, state := st
          effects := { submitted := true, cancelCalls := 1, completions := [], changed := [] } }) ∧
    (o.cancelAtTop = false → o.abortDuringDelay = true →
      execPollLoop st sessionId refresh (pre ++ o :: rest) =
        { outcome := ExecOutcome.rejected, state := st
          effects := { submitted := true, cancelCalls := 0, completions := [], changed := [] } }) ∧
    (o.cancelAtTop = false → o.abortDuringDelay = false → o.cancelAfterDelay = true →
      execPollLoop st sessionId refresh (pre ++ o :: rest) =
        { outcome := ExecOutcome.noResult, state := st
          effects := { submitted := true, cancelCalls := 0, completions := [], changed := [] } }) := by
  rw [execPollLoop_skip st sessionId refresh pre (o :: rest) hpre]
  refine ⟨fun h1 => ?_, fun h1 h2 => ?_, fun h1 h2 h3 => ?_⟩
  · simp [execPollLoop, h1]
  · simp [execPollLoop, h1, h2]
  · simp [execPollLoop, h1, h2, h3]

/-- Witness for C4 as amended: one continuing cycle, then cancellation
observed at the top of the next cycle — null outcome, exactly one cancel
attempt, no notification, state untouched, trailing cycles ignored. -/
theorem C4_amended_cancellation_witness :
    execPollLoop (ManagerState.mk none none 0) 5 none
      ([ExecObs.mk false false false false
          (some (LivyStatement.mk 2 "x" StatementState.running))] ++
        ExecObs.mk true true false false none ::
          [ExecObs.mk false false false false none]) =
      { outcome := ExecOutcome.noResult, state := ManagerState.mk none none 0
        effects := { submitted := true, cancelCalls := 1, completions := [], changed := [] } } :=
  (C4_amended_cancellation (ManagerState.mk none none 0) 5 none
      [ExecObs.mk false false false false
        (some (LivyStatement.mk 2 "x" StatementState.running))]
      (ExecObs.mk true true false false none)
      [ExecObs.mk false false false false none]
      (by intro x hx; simp at hx; subst hx; rfl)).1 rfl

/-- Claim C5: the first-hop create request succeeds exactly on HTTP 307
with a non-empty `Location` header — a 307 without one is the
protocol-violation failure and any other status is the hard failure —
the second-hop streamed PUT succeeds exactly on HTTP 201 and otherwise
fails carrying the response body, and a failed upload never returns a
locator string. -/
theorem C5_upload_hop_conditions :
    (∀ res : HttpResponse,
      ((∃ loc, initiateCreate res = Except.ok loc) ↔
        res.statusCode = 307 ∧ ∃ loc, res.location = some loc ∧ loc ≠ "") ∧
      (res.statusCode = 307 → res.location = none →
        initiateCreate res = Except.error UploadError.missingLocation) ∧
      (res.statusCode ≠ 307 →
        initiateCreate res = Except.error (UploadError.createFailed res.statusCode res.body))) ∧
    (∀ res : HttpResponse,
      (streamFileToDataNode res = Except.ok () ↔ res.statusCode = 201) ∧
      (res.statusCode ≠ 201 →
        streamFileToDataNode res = Except.error (UploadError.putFailed res.statusCode res.body))) ∧
    (∀ (remotePath : String) (mkdirsRes createRes putRes : HttpResponse) (s : String),
      upload remotePath mkdirsRes createRes putRes = Except.ok s →
        (200 ≤ mkdirsRes.statusCode ∧ mkdirsRes.statusCode < 300) ∧
        createRes.statusCode = 307 ∧
        (∃ loc, createRes.location = some loc ∧ loc ≠ "") ∧
        putRes.statusCode = 201 ∧
        s = String.append "hdfs://" remotePath) := by
  refine ⟨?_, ?_, ?_⟩
  · intro res
    refine ⟨?_, ?_, ?_⟩
    · constructor
      · rintro ⟨loc, hloc⟩
        by_cases h307 : res.statusCode = 307
        · cases hl : res.location with
          | none => simp [initiateCreate, h307, hl] at hloc
          | some l =>
            by_cases hempty : l = ""
            · simp [initiateCreate, h307, hl, hempty] at hloc
            · exact ⟨h307, l, rfl, hempty⟩
        · simp [initiateCreate, h307] at hloc
      · rintro ⟨h307, l, hl, hempty⟩
        exact ⟨l, by simp [initiateCreate, h307, hl, hempty]⟩
    · intro h307 hl
      simp [initiateCreate, h307, hl]
    · intro h307
      simp [initiateCreate, h307]
  · intro res
    constructor
    · constructor
      · intro h
        by_cases h201 : res.statusCode = 201
        · exact h201
        · simp [streamFileToDataNode, h201] at h
      · intro h201
        simp [streamFileToDataNode, h201]
    · intro h201
      simp [streamFileToDataNode, h201]
  · intro remotePath mkdirsRes createRes putRes s hok
    by_cases h1 : 200 ≤ mkdirsRes.statusCode ∧ mkdirsRes.statusCode < 300
    · by_cases h2 : createRes.statusCode = 307
      · cases hl : createRes.location with
        | none => simp [upload, ensureDirectory, initiateCreate, h1, h2, hl] at hok
        | some l =>
          by_cases hempty : l = ""
          · simp [upload, ensureDirectory, initiateCreate, h1, h2, hl, hempty] at hok
          · by_cases h3 : putRes.statusCode = 201
            · refine ⟨h1, h2, ⟨l, rfl, hempty⟩, h3, ?_⟩
              simp [upload, ensureDirectory, initiateCreate, streamFileToDataNode,
                h1, h2, hl, hempty, h3] at hok
              exact hok.symm
            · simp [upload, ensureDirectory, initiateCreate, streamFileToDataNode,
                h1, h2, hl, hempty, h3] at hok
      · simp [upload, ensureDirectory, initiateCreate, h1, h2] at hok
    · simp [upload, ensureDirectory, h1] at hok

/-- Witness for C5: a fully successful two-hop upload at concrete
responses, and the concrete success conditions it implies. -/
theorem C5_upload_hop_conditions_witness :
    (200 ≤ (HttpResponse.mk 200 none "ok").statusCode ∧
      (HttpResponse.mk 200 none "ok").statusCode < 300) ∧
    (HttpResponse.mk 307 (some "http://dn:9864/f") "").statusCode = 307 ∧
    (∃ loc, (HttpResponse.mk 307 (some "http://dn:9864/f") "").location = some loc ∧
      loc ≠ "") ∧
    (HttpResponse.mk 201 none "").statusCode = 201 ∧
    "hdfs:///user/a/f.py" = String.append "hdfs://" "/user/a/f.py" :=
  C5_upload_hop_conditions.2.2 "/user/a/f.py" (HttpResponse.mk 200 none "ok")
    (HttpResponse.mk 307 (some "http://dn:9864/f") "") (HttpResponse.mk 201 none "")
    "hdfs:///user/a/f.py" rfl

/-- Claim C6: whenever `killSession`'s target — explicit or defaulted —
equals the active session's id, the active-session handle (and the
persisted id) is cleared and a `sessionChanged` notification with no
session fires, whether or not the remote delete succeeded. -/
theorem C6_kill_clears_active (st : ManagerState) (a : LivySession) (id : Option Nat)
    (deleteOk : Bool) (hactive : st.activeSession = some a)
    (htarget : id = some a.id ∨ id = none) :
    killSession st id deleteOk =
      ({ st with activeSession := none, savedSessionId := none }, [none]) := by
  have hid : st.activeId = some a.id := by
    simp [ManagerState.activeId, hactive]
  rcases htarget with h | h <;> subst h <;> simp [killSession, hid]

/-- Witness for C6: killing the active session with a failing remote
delete still clears the handle and fires the empty notification. -/
theorem C6_kill_clears_active_witness :
    killSession
        (ManagerState.mk
          (some (LivySession.mk 3 "a" SessionKind.sql SessionState.busy [] [] [] []))
          (some 3) 7)
        (some 3) false =
      (ManagerState.mk none none 7, [none]) :=
  C6_kill_clears_active
    (ManagerState.mk
      (some (LivySession.mk 3 "a" SessionKind.sql SessionState.busy [] [] [] []))
      (some 3) 7)
    (LivySession.mk 3 "a" SessionKind.sql SessionState.busy [] [] [] [])
    (some 3) false rfl (Or.inl rfl)

/-- Claim C9: after a successful fetch-next the cursor equals the
response's `from` plus the number of returned lines; tail probes the
total with a 1-row fetch and then fetches `LOG_SIZE` rows from
`max(0, total - LOG_SIZE)`; and the cursor is reset to zero by a
successful create, connect, and restore. -/
theorem C9_log_cursor_behaviour :
    (∀ (st : ManagerState) (a : LivySession)
        (fetch : Nat → Nat → Nat → Option LogResponse) (r : LogResponse),
      st.activeSession = some a → fetch a.id st.logOffset LOG_SIZE = some r →
      nextLogs st fetch =
        ({ st with logOffset := r.fromIndex + r.log.length },
         [{ sessionId := a.id, fromIndex := st.logOffset, size := LOG_SIZE }])) ∧
    (∀ (st : ManagerState) (a : LivySession)
        (fetch : Nat → Nat → Nat → Option LogResponse) (probe : LogResponse),
      st.activeSession = some a → fetch a.id 0 1 = some probe →
      tailLogs st fetch =
        [{ sessionId := a.id, fromIndex := 0, size := 1 },
         { sessionId := a.id, fromIndex := tailOffset probe.total, size := LOG_SIZE }] ∧
      tailOffset probe.total = (max 0 ((probe.total : Int) - (LOG_SIZE : Int))).toNat) ∧
    (∀ (st : ManagerState) (created : Option LivySession) (obs : List PollObs)
        (s : LivySession),
      (createSession st created obs).exit = CreateExit.success s →
      (createSession st created obs).state.logOffset = 0) ∧
    (∀ (st : ManagerState) (s : LivySession),
      connectToExisting st (some s) =
        ({ activeSession := some s, savedSessionId := some s.id, logOffset := 0 },
         [some s])) ∧
    (∀ (st : ManagerState) (savedId : Nat) (fetch : Nat → Option LivySession)
        (s : LivySession),
      st.savedSessionId = some savedId → fetch savedId = some s →
      (restoreSession st fetch).1.logOffset = 0) := by
  refine ⟨?_, ?_, ?_, ?_, ?_⟩
  · intro st a fetch r hactive hfetch
    simp [nextLogs, getLogs, hactive, hfetch]
  · intro st a fetch probe hactive hfetch
    refine ⟨?_, rfl⟩
    simp [tailLogs, hactive, hfetch]
  · intro st created obs s hexit
    cases created with
    | none => simp [createSession] at hexit
    | some session =>
      simp only [createSession] at hexit ⊢
      rcases createPollLoop_cases obs st session with ⟨s', -, heq⟩ | ⟨-, -, hne⟩
      · rw [heq]
      · exact absurd hexit (hne s)
  · intro st s
    rfl
  · intro st savedId fetch s hsaved hfetch
    simp [restoreSession, hsaved, hfetch]

/-- Witness for C9 at concrete states: one fetch-next advancing the
cursor to 12 + 2, one tail run probing total 250, one successful
connect, and one successful restore. -/
theorem C9_log_cursor_behaviour_witness :
    nextLogs (ManagerState.mk
        (some (LivySession.mk 6 "s" SessionKind.pyspark SessionState.idle [] [] [] []))
        (some 6) 10)
      (fun _ _ _ => some (LogResponse.mk 6 12 2 250 ["l1", "l2"])) =
      (ManagerState.mk
        (some (LivySession.mk 6 "s" SessionKind.pyspark SessionState.idle [] [] [] []))
        (some 6) 14,
       [LogRequest.mk 6 10 100]) ∧
    tailLogs (ManagerState.mk
        (some (LivySession.mk 6 "s" SessionKind.pyspark SessionState.idle [] [] [] []))
        (some 6) 10)
      (fun _ _ _ => some (LogResponse.mk 6 0 1 250 ["l0"])) =
      [LogRequest.mk 6 0 1, LogRequest.mk 6 150 100] ∧
    connectToExisting (ManagerState.mk none none 33)
      (some (LivySession.mk 8 "c" SessionKind.spark SessionState.idle [] [] [] [])) =
      (ManagerState.mk
        (some (LivySession.mk 8 "c" SessionKind.spark SessionState.idle [] [] [] []))
        (some 8) 0,
       [some (LivySession.mk 8 "c" SessionKind.spark SessionState.idle [] [] [] [])]) ∧
    (restoreSession (ManagerState.mk none (some 4) 9)
      (fun _ => some (LivySession.mk 4 "r" SessionKind.sql SessionState.busy [] [] [] []))).1.logOffset =
      0 := by
  refine ⟨?_, ?_, ?_, ?_⟩
  · exact C9_log_cursor_behaviour.1 _
      (LivySession.mk 6 "s" SessionKind.pyspark SessionState.idle [] [] [] []) _
      (LogResponse.mk 6 12 2 250 ["l1", "l2"]) rfl rfl
  · have h := C9_log_cursor_behaviour.2.1
      (ManagerState.mk
        (some (LivySession.mk 6 "s" SessionKind.pyspark SessionState.idle [] [] [] []))
        (some 6) 10)
      (LivySession.mk 6 "s" SessionKind.pyspark SessionState.idle [] [] [] [])
      (fun _ _ _ => some (LogResponse.mk 6 0 1 250 ["l0"]))
      (LogResponse.mk 6 0 1 250 ["l0"]) rfl rfl
    exact h.1.trans (by decide)
  · exact C9_log_cursor_behaviour.2.2.2.1 (ManagerState.mk none none 33)
      (LivySession.mk 8 "c" SessionKind.spark SessionState.idle [] [] [] [])
  · exact C9_log_cursor_behaviour.2.2.2.2 (ManagerState.mk none (some 4) 9) 4 _
      (LivySession.mk 4 "r" SessionKind.sql SessionState.busy [] [] [] []) rfl rfl
